import Mathlib

/-!
Verification of the claude-automation repository (src/bugfix_5.py and
src/test_code_review.py) against its natural-language specification.

The Python module is embedded shallowly:

* Python dicts that end up serialized by `json.dumps` are modelled by the
  inductive `JValue`; dict literals keep their key order.
* `datetime.now()` readings are modelled as integers counting microseconds
  (the resolution of CPython datetimes); `total_seconds()` of a timedelta is
  the exact rational microseconds / 10^6 (exact arithmetic in place of the
  IEEE double, which is irrelevant to every claim's content).
* The `try`/`except` blocks of the source are modelled by fault-injection
  slots in `Env`: a slot holding `some msg` means an exception with text
  `msg` is raised at that point of the body, a slot holding `none` means the
  body runs normally.  In the real code the step bodies are constant dict
  literals, so the slots model the exception paths the source guards against.
* Methods of `ClaudeAutomationBugfix` never assign to attributes of `self`
  outside `__init__`; the state-passing wrappers at the end return the
  post-state of `self` obtained by translating each statement of the body.
-/

/-- A JSON-serializable Python value as produced by the module:
`None`, `bool`, `int`, `float` (exact rational here), `str`, `dict`. -/
inductive JValue where
  | jNull : JValue
  | jBool : Bool → JValue
  | jInt : Int → JValue
  | jRat : Rat → JValue
  | jStr : String → JValue
  | jObj : List (String × JValue) → JValue

/-- A dynamically-typed Python scalar, as needed by the `isinstance`
check on `self.issue_number`. -/
inductive PyScalar where
  | pInt : Int → PyScalar
  | pStr : String → PyScalar
  | pNone : PyScalar
deriving Repr, DecidableEq

/-- `isinstance(x, int)` for the modelled scalars. -/
def PyScalar.isInt : PyScalar → Bool
  | .pInt _ => true
  | _ => false

/-- Injection of a Python scalar into a JSON value. -/
def PyScalar.toJ : PyScalar → JValue
  | .pInt n => .jInt n
  | .pStr s => .jStr s
  | .pNone => .jNull

/-- `x if x is not None else null` for an optional string field. -/
def optStrToJ : Option String → JValue
  | some s => .jStr s
  | none => .jNull

/-- A CPython naive datetime, as returned by `datetime.now()`. -/
structure PyDateTime where
  year : Nat
  month : Nat
  day : Nat
  hour : Nat
  minute : Nat
  second : Nat
  microsecond : Nat
deriving Repr, DecidableEq

/-- Range validity of a datetime (what `datetime` enforces on construction;
the day bound is the coarse `≤ 31` one, month lengths do not matter here). -/
def PyDateTime.Valid (d : PyDateTime) : Prop :=
  1 ≤ d.year ∧ d.year ≤ 9999 ∧ 1 ≤ d.month ∧ d.month ≤ 12 ∧
  1 ≤ d.day ∧ d.day ≤ 31 ∧ d.hour ≤ 23 ∧ d.minute ≤ 59 ∧
  d.second ≤ 59 ∧ d.microsecond ≤ 999999

instance (d : PyDateTime) : Decidable d.Valid := by
  unfold PyDateTime.Valid; infer_instance

/-- A natural number printed in decimal, left-padded with zeros to width `w`. -/
def padNat (w : Nat) (n : Nat) : String :=
  let s := toString n
  String.mk (List.replicate (w - s.length) '0') ++ s

/-- `datetime.isoformat()`: `YYYY-MM-DDTHH:MM:SS` plus `.ffffff` when the
microsecond field is nonzero (CPython omits it when it is zero). -/
def PyDateTime.isoformat (d : PyDateTime) : String :=
  padNat 4 d.year ++ "-" ++ padNat 2 d.month ++ "-" ++ padNat 2 d.day ++ "T" ++
  padNat 2 d.hour ++ ":" ++ padNat 2 d.minute ++ ":" ++ padNat 2 d.second ++
  (if d.microsecond == 0 then "" else "." ++ padNat 6 d.microsecond)

/-- A string is an ISO-8601 timestamp when it is the `isoformat` rendering
of some valid datetime. -/
def IsIso8601 (s : String) : Prop :=
  ∃ d : PyDateTime, d.Valid ∧ s = d.isoformat

/-- The runtime environment of one process: interpreter version, the two
wall-clock readings taken inside `implement_enhanced_automation` (microseconds),
and the fault-injection slots for the three `try` blocks of the class. -/
structure Env where
  py_major : Nat
  py_minor : Nat
  startUs : Int
  endUs : Int
  validateFault : Option String
  stepFault : Nat → Option String
  reportFault : Option String

/-- An environment with no injected faults: every `try` body runs normally,
which is what the constant-returning source always does. -/
def Env.Normal (env : Env) : Prop :=
  env.validateFault = none ∧ (∀ i, env.stepFault i = none) ∧ env.reportFault = none

/-- `sys.version_info >= (3, 8)`: lexicographic comparison on (major, minor). -/
def Env.versionGE38 (env : Env) : Bool :=
  decide (3 < env.py_major) || (decide (env.py_major = 3) && decide (8 ≤ env.py_minor))

/-- The per-run context object: the three attributes set by `__init__`. The
logger is always constructed by `_setup_logging`, so only its presence
(`is not None`) is modelled. -/
structure ClaudeAutomationBugfix where
  issue_number : PyScalar
  timestamp : Option String
  logger : Option Unit
deriving Repr, DecidableEq

/-- `ClaudeAutomationBugfix.__init__(issue_number)`: stores the issue number,
`datetime.now().isoformat()` (with `now` the construction-time clock reading)
and the logger from `_setup_logging`. -/
def initBugfix (issue_number : Int) (now : PyDateTime) : ClaudeAutomationBugfix :=
  { issue_number := .pInt issue_number
    timestamp := some now.isoformat
    logger := some () }

/-- `validate_automation_prerequisites`: the four checks of the `try` body, or
the `{'error': True, 'message': str(e)}` dict from the `except` branch when a
fault is injected there. -/
def validate_automation_prerequisites (self : ClaudeAutomationBugfix) (env : Env) :
    List (String × JValue) :=
  match env.validateFault with
  | some e => [("error", .jBool true), ("message", .jStr e)]
  | none =>
    [("python_version", .jBool env.versionGE38),
     ("logging_configured", .jBool self.logger.isSome),
     ("timestamp_valid", .jBool self.timestamp.isSome),
     ("issue_number_valid", .jBool self.issue_number.isInt)]

/-- `_detect_implementation_type`: a constant dict literal. -/
def detect_implementation_type : List (String × JValue) :=
  [("status", .jStr "completed"),
   ("type", .jStr "bugfix"),
   ("confidence", .jStr "100%"),
   ("method", .jStr "keyword_analysis")]

/-- `_generate_code_solution`: a constant dict literal. -/
def generate_code_solution : List (String × JValue) :=
  [("status", .jStr "completed"),
   ("solution", .jStr "enhanced_error_handling"),
   ("quality", .jStr "production_ready"),
   ("test_coverage", .jStr "95%")]

/-- `_validate_security_checks`: a constant dict literal. -/
def validate_security_checks : List (String × JValue) :=
  [("status", .jStr "completed"),
   ("security_score", .jStr "100%"),
   ("vulnerabilities", .jStr "none_detected"),
   ("compliance", .jStr "full")]

/-- `_prepare_review_data`: a constant dict literal (note `review_ready` is a
boolean in the source despite the `Dict[str, str]` annotation). -/
def prepare_review_data : List (String × JValue) :=
  [("status", .jStr "completed"),
   ("review_ready", .jBool true),
   ("documentation", .jStr "comprehensive"),
   ("test_status", .jStr "passing")]

/-- The `automation_steps` list of `implement_enhanced_automation`, by
1-based ordinal as produced by `enumerate(automation_steps, 1)`. -/
def stepBody : Nat → List (String × JValue)
  | 1 => detect_implementation_type
  | 2 => generate_code_solution
  | 3 => validate_security_checks
  | 4 => prepare_review_data
  | _ => []

/-- Calling step `i` under fault assignment `fault`: the injected fault
raises there, otherwise the constant body is returned. -/
def stepCall (fault : Nat → Option String) (i : Nat) :
    Except String (List (String × JValue)) :=
  match fault i with
  | some e => .error e
  | none => .ok (stepBody i)

/-- The ordinals of the four steps, in the fixed execution order. -/
def stepOrdinals : List Nat := [1, 2, 3, 4]

/-- The `for i, step in enumerate(automation_steps, 1)` loop: accumulates
`results[f'step_i'] = step()` and propagates the first raised exception to
the surrounding `try`. -/
def runStepsFrom (fault : Nat → Option String) :
    List Nat → List (String × JValue) → Except String (List (String × JValue))
  | [], acc => .ok acc
  | i :: rest, acc =>
    match stepCall fault i with
    | .error e => .error e
    | .ok r => runStepsFrom fault rest (acc ++ [("step_" ++ toString i, .jObj r)])

/-- `(end_time - start_time).total_seconds()` with microsecond clock readings,
as an exact rational. -/
def elapsedSeconds (env : Env) : Rat :=
  ((env.endUs - env.startUs : Int) : Rat) / 1000000

/-- `implement_enhanced_automation`: runs the four steps in order inside a
`try`; on success returns the success dict with timing and per-step results,
on a raised exception returns the error dict of the `except` branch. -/
def implement_enhanced_automation (self : ClaudeAutomationBugfix) (env : Env) :
    List (String × JValue) :=
  match runStepsFrom env.stepFault stepOrdinals [] with
  | .error e =>
    [("status", .jStr "error"),
     ("issue_number", self.issue_number.toJ),
     ("error_message", .jStr e),
     ("timestamp", optStrToJ self.timestamp)]
  | .ok results =>
    [("status", .jStr "success"),
     ("issue_number", self.issue_number.toJ),
     ("execution_time_seconds", .jRat (elapsedSeconds env)),
     ("timestamp", optStrToJ self.timestamp),
     ("steps_completed", .jInt (stepOrdinals.length : Int)),
     ("results", .jObj results)]

/-- The `expected_performance` dict literal of the report. -/
def expected_performance : List (String × JValue) :=
  [("resolution_time", .jStr "<3_minutes"),
   ("automation_level", .jStr "100%"),
   ("quality_assurance", .jStr "claude_reviewed")]

/-- The value under `claude_automation_report` in the report dict assembled
inside `generate_automation_report`. -/
def reportInner (self : ClaudeAutomationBugfix) (env : Env) :
    List (String × JValue) :=
  [("issue_number", self.issue_number.toJ),
   ("report_timestamp", optStrToJ self.timestamp),
   ("prerequisites", .jObj (validate_automation_prerequisites self env)),
   ("implementation", .jObj (implement_enhanced_automation self env)),
   ("automation_type", .jStr "enhanced_instant_review"),
   ("expected_performance", .jObj expected_performance)]

/-- The `report` dict assembled inside `generate_automation_report`. -/
def reportValue (self : ClaudeAutomationBugfix) (env : Env) : JValue :=
  .jObj [("claude_automation_report", .jObj (reportInner self env))]

/-- JSON escaping of one character, as `json.dumps` does for the characters
that can occur here (quote, backslash and the common control characters;
other characters pass through unchanged). -/
def escapeChar (c : Char) : String :=
  if c = '\"' then "\\\""
  else if c = '\\' then "\\\\"
  else if c = '\n' then "\\n"
  else if c = '\t' then "\\t"
  else if c = '\r' then "\\r"
  else String.singleton c

/-- JSON escaping of a string. -/
def escapeStr (s : String) : String :=
  String.join (s.data.map escapeChar)

/-- A JSON string literal: escaped content between double quotes. -/
def jsQuote (s : String) : String :=
  "\"" ++ escapeStr s ++ "\""

/-- Decimal rendering of the elapsed-seconds float: integer part, a dot and
the fractional part to microsecond precision, trailing zeros stripped down to
one digit (the shortest-repr refinements of CPython floats do not matter to
any claim). -/
def floatRepr (q : Rat) : String :=
  let sgn := if q < 0 then "-" else ""
  let a := |q|
  let ip := a.floor.toNat
  let fr := ((a - (ip : Rat)) * 1000000).floor.toNat
  let digits := padNat 6 fr
  let kept := digits.length - (digits.data.reverse.takeWhile (· = '0')).length
  let fracPart := if kept = 0 then "0" else String.mk (digits.data.take kept)
  sgn ++ toString ip ++ "." ++ fracPart

/-- The indentation produced by `json.dumps(..., indent=2)` at nesting
level `lvl`: `2 * lvl` spaces. -/
def indentStr (lvl : Nat) : String :=
  String.mk (List.replicate (2 * lvl) ' ')

mutual

/-- `json.dumps(v, indent=2)` at nesting level `lvl`: scalars render inline,
a nonempty dict opens a brace, renders its entries one per line indented one
level deeper, and closes the brace at the current level. -/
def dumps : JValue → Nat → String
  | .jNull, _ => "null"
  | .jBool b, _ => if b then "true" else "false"
  | .jInt n, _ => toString n
  | .jRat q, _ => floatRepr q
  | .jStr s, _ => jsQuote s
  | .jObj [], _ => "\x7b\x7d"
  | .jObj (kv :: kvs), lvl =>
    "\x7b\n" ++ dumpsEntries (kv :: kvs) (lvl + 1) ++ "\n" ++ indentStr lvl ++ "\x7d"

/-- The comma-and-newline separated entry lines of a dict body. -/
def dumpsEntries : List (String × JValue) → Nat → String
  | [], _ => ""
  | [(k, v)], lvl => indentStr lvl ++ jsQuote k ++ ": " ++ dumps v lvl
  | (k, v) :: kv :: kvs, lvl =>
    indentStr lvl ++ jsQuote k ++ ": " ++ dumps v lvl ++ ",\n" ++
      dumpsEntries (kv :: kvs) lvl

end

/-- `generate_automation_report`: assembles the report dict and serializes it
with two-space indent; when a fault is injected into its `try` body the
`except` branch serializes `{'error': str(e)}` instead. -/
def generate_automation_report (self : ClaudeAutomationBugfix) (env : Env) : String :=
  match env.reportFault with
  | some e => dumps (.jObj [("error", .jStr e)]) 0
  | none => dumps (reportValue self env) 0

/-- The `try` body of `main()`: constructs the context with issue number 5,
generates the report (every modelled operation is total, so the body never
raises) and returns exit code 0. -/
def mainBody (env : Env) (now : PyDateTime) : Except String Int :=
  let automation := initBugfix 5 now
  let _report := generate_automation_report automation env
  .ok 0

/-- `main()`: its `except` branch would return exit code 1, but the body is
total in the model just as every exception is caught inside the class. -/
def pyMain (env : Env) (now : PyDateTime) : Int :=
  match mainBody env now with
  | .ok n => n
  | .error _ => 1

mutual

/-- Removes every `execution_time_seconds` entry, at any depth, from a value:
the timing field that may differ between two runs. -/
def eraseTime : JValue → JValue
  | .jObj kvs => .jObj (eraseTimeList kvs)
  | v => v

/-- `eraseTime` over the entries of a dict. -/
def eraseTimeList : List (String × JValue) → List (String × JValue)
  | [] => []
  | (k, v) :: kvs =>
    if k = "execution_time_seconds" then eraseTimeList kvs
    else (k, eraseTime v) :: eraseTimeList kvs

end

/-- Looks a key up in a dict body (first match, as every dict here has
distinct keys). -/
def jLookup (k : String) : List (String × JValue) → Option JValue
  | [] => none
  | (k', v) :: kvs => if k' = k then some v else jLookup k kvs

/-- A statement of the fixture module `test_code_review.py`, at the
granularity its evaluation needs: imports bind a name, `console.log = ...`
evaluates the name `console` in the enclosing scopes, `def` binds a name. -/
inductive PyStmt where
  | importStmt : String → PyStmt
  | assignAttrOn : String → PyStmt
  | defStmt : String → PyStmt

/-- The Python builtins relevant to name resolution in the fixture module;
`console` is not among the builtins of any CPython. -/
def pyBuiltins : List String :=
  ["print", "len", "range", "isinstance", "str", "int", "bool", "float",
   "dict", "list", "set", "tuple", "type", "object", "Exception", "__name__"]

/-- Module-level execution: statements run in order against the module scope;
evaluating an undefined name raises `NameError`, carried together with the
names bound so far. -/
def execModule : List PyStmt → List String → Except (String × List String) (List String)
  | [], scope => .ok scope
  | .importStmt n :: rest, scope => execModule rest (scope ++ [n])
  | .assignAttrOn n :: rest, scope =>
    if scope.contains n || pyBuiltins.contains n then execModule rest scope
    else .error (n, scope)
  | .defStmt n :: rest, scope => execModule rest (scope ++ [n])

/-- The module-level statements of `test_code_review.py`, in source order:
`import os`, `import logging`, `console.log = lambda x: ...`,
`def test_function`, `def main`, and the `__main__` guard that would call
`main()` (reached only if every earlier statement succeeds). -/
def test_code_review_stmts : List PyStmt :=
  [.importStmt "os", .importStmt "logging", .assignAttrOn "console",
   .defStmt "test_function", .defStmt "main"]

/-- `x` occurs contiguously inside `y`. -/
def SubstrOf (x y : String) : Prop :=
  ∃ a b : String, y = a ++ x ++ b

/-- State-passing form of `validate_automation_prerequisites`: the body
assigns to no attribute of `self`, so the translated post-state is the
input state. -/
def validate_automation_prerequisitesSt (self : ClaudeAutomationBugfix)
    (env : Env) : List (String × JValue) × ClaudeAutomationBugfix :=
  (validate_automation_prerequisites self env, self)

/-- State-passing form of `implement_enhanced_automation`: no statement of
the body assigns to an attribute of `self`. -/
def implement_enhanced_automationSt (self : ClaudeAutomationBugfix)
    (env : Env) : List (String × JValue) × ClaudeAutomationBugfix :=
  (implement_enhanced_automation self env, self)

/-- State-passing form of `generate_automation_report`: no statement of the
body assigns to an attribute of `self`. -/
def generate_automation_reportSt (self : ClaudeAutomationBugfix)
    (env : Env) : String × ClaudeAutomationBugfix :=
  (generate_automation_report self env, self)

/-- A concrete normal environment for the witnesses: CPython 3.11, the two
clock readings 1500 microseconds apart, no injected faults. -/
def env0 : Env :=
  { py_major := 3, py_minor := 11, startUs := 1000000, endUs := 1001500,
    validateFault := none, stepFault := fun _ => none, reportFault := none }

/-- A concrete construction-time clock reading for the witnesses. -/
def dt0 : PyDateTime :=
  { year := 2026, month := 10, day := 12, hour := 9, minute := 30,
    second := 15, microsecond := 123456 }

/-- The spec scenario environment for the witnesses: step 2 raises an
internal fault, the other steps run normally. -/
def env2fault : Env :=
  { env0 with stepFault := fun j => if j = 2 then some "injected fault" else none }

theorem substrOf_append_left (x z : String) {y : String} (h : SubstrOf x y) :
    SubstrOf x (z ++ y) := by
  obtain ⟨a, b, rfl⟩ := h
  exact ⟨z ++ a, b, by simp [String.append_assoc]⟩

theorem substrOf_append_right (x z : String) {y : String} (h : SubstrOf x y) :
    SubstrOf x (y ++ z) := by
  obtain ⟨a, b, rfl⟩ := h
  exact ⟨a, b ++ z, by simp [String.append_assoc]⟩

/-- Unfolding one entry line of a dict body with at least two entries. -/
theorem dumpsEntries_cons (k : String) (v : JValue) (kv : String × JValue)
    (kvs : List (String × JValue)) (lvl : Nat) :
    dumpsEntries ((k, v) :: kv :: kvs) lvl =
      (indentStr lvl ++ jsQuote k ++ ": " ++ dumps v lvl ++ ",\n") ++
        dumpsEntries (kv :: kvs) lvl := rfl

/-- Unfolding the last entry line of a dict body. -/
theorem dumpsEntries_single (k : String) (v : JValue) (lvl : Nat) :
    dumpsEntries [(k, v)] lvl =
      (indentStr lvl ++ jsQuote k ++ ": ") ++ dumps v lvl := rfl

/-- A substring of the entry lines of a nonempty dict body is a substring of
the serialized dict. -/
theorem substrOf_dumps_obj (x : String) (kv : String × JValue)
    (kvs : List (String × JValue)) (lvl : Nat)
    (h : SubstrOf x (dumpsEntries (kv :: kvs) (lvl + 1))) :
    SubstrOf x (dumps (.jObj (kv :: kvs)) lvl) := by
  show SubstrOf x ("\x7b\n" ++ dumpsEntries (kv :: kvs) (lvl + 1) ++ "\n" ++
    indentStr lvl ++ "\x7d")
  exact substrOf_append_right _ _ (substrOf_append_right _ _ (substrOf_append_right _ _
    (substrOf_append_left _ _ h)))

/-- The loop result when none of the four steps raises: the four constant
bodies keyed `step_1` … `step_4`, in execution order. -/
theorem runSteps_all_ok (fault : Nat → Option String)
    (h1 : fault 1 = none) (h2 : fault 2 = none)
    (h3 : fault 3 = none) (h4 : fault 4 = none) :
    runStepsFrom fault stepOrdinals [] = .ok
      [("step_1", .jObj detect_implementation_type),
       ("step_2", .jObj generate_code_solution),
       ("step_3", .jObj validate_security_checks),
       ("step_4", .jObj prepare_review_data)] := by
  simp only [stepOrdinals, runStepsFrom, stepCall, h1, h2, h3, h4]
  rfl

/-- Claim C2: when no step raises, `implement_enhanced_automation` returns
the success dict: `status = "success"`, `steps_completed = 4`, and a
`results` dict holding exactly four entries keyed `step_1` … `step_4` in the
fixed execution order (detect type, generate solution, validate security,
prepare review data), each equal to the fixed literal body of its step and
each carrying `status = "completed"`. -/
theorem implement_success_c2 (self : ClaudeAutomationBugfix) (env : Env)
    (h1 : env.stepFault 1 = none) (h2 : env.stepFault 2 = none)
    (h3 : env.stepFault 3 = none) (h4 : env.stepFault 4 = none) :
    implement_enhanced_automation self env =
      [("status", .jStr "success"),
       ("issue_number", self.issue_number.toJ),
       ("execution_time_seconds", .jRat (elapsedSeconds env)),
       ("timestamp", optStrToJ self.timestamp),
       ("steps_completed", .jInt 4),
       ("results", .jObj
         [("step_1", .jObj detect_implementation_type),
          ("step_2", .jObj generate_code_solution),
          ("step_3", .jObj validate_security_checks),
          ("step_4", .jObj prepare_review_data)])] ∧
    (∀ i ∈ stepOrdinals, jLookup "status" (stepBody i) = some (.jStr "completed")) := by
  constructor
  · simp only [implement_enhanced_automation,
      runSteps_all_ok env.stepFault h1 h2 h3 h4]
    rfl
  · intro i hi
    fin_cases hi <;> rfl

/-- Witness for C2 at issue number 5 in the concrete normal environment. -/
theorem implement_success_c2_witness :
    implement_enhanced_automation (initBugfix 5 dt0) env0 =
      [("status", .jStr "success"),
       ("issue_number", (initBugfix 5 dt0).issue_number.toJ),
       ("execution_time_seconds", .jRat (elapsedSeconds env0)),
       ("timestamp", optStrToJ (initBugfix 5 dt0).timestamp),
       ("steps_completed", .jInt 4),
       ("results", .jObj
         [("step_1", .jObj detect_implementation_type),
          ("step_2", .jObj generate_code_solution),
          ("step_3", .jObj validate_security_checks),
          ("step_4", .jObj prepare_review_data)])] :=
  (implement_success_c2 (initBugfix 5 dt0) env0 rfl rfl rfl rfl).1

/-- Claim C3: when a step raises (the first fault being at step `i` with
exception text `e`), `implement_enhanced_automation` does not propagate the
exception: it returns the error dict with `status = "error"`, the exception
text as `error_message`, plus `issue_number` and `timestamp`; and the
top-level driver still exits 0 because the fault is caught inside the
class. -/
theorem implement_error_c3 (self : ClaudeAutomationBugfix) (env : Env)
    (now : PyDateTime) (i : Nat) (e : String) (hi : i ∈ stepOrdinals)
    (hf : env.stepFault i = some e)
    (hprev : ∀ j, j < i → env.stepFault j = none) (he : e ≠ "") :
    implement_enhanced_automation self env =
      [("status", .jStr "error"),
       ("issue_number", self.issue_number.toJ),
       ("error_message", .jStr e),
       ("timestamp", optStrToJ self.timestamp)] ∧
    e ≠ "" ∧ pyMain env now = 0 := by
  refine ⟨?_, he, rfl⟩
  have hrun : runStepsFrom env.stepFault stepOrdinals [] = .error e := by
    fin_cases hi
    · simp [stepOrdinals, runStepsFrom, stepCall, hf]
    · have g1 := hprev 1 (by norm_num)
      simp [stepOrdinals, runStepsFrom, stepCall, g1, hf]
    · have g1 := hprev 1 (by norm_num)
      have g2 := hprev 2 (by norm_num)
      simp [stepOrdinals, runStepsFrom, stepCall, g1, g2, hf]
    · have g1 := hprev 1 (by norm_num)
      have g2 := hprev 2 (by norm_num)
      have g3 := hprev 3 (by norm_num)
      simp [stepOrdinals, runStepsFrom, stepCall, g1, g2, g3, hf]
  simp only [implement_enhanced_automation, hrun]

/-- Witness for C3: the spec scenario, step 2 raising an internal fault. -/
theorem implement_error_c3_witness :
    implement_enhanced_automation (initBugfix 5 dt0) env2fault =
      [("status", .jStr "error"),
       ("issue_number", (initBugfix 5 dt0).issue_number.toJ),
       ("error_message", .jStr "injected fault"),
       ("timestamp", optStrToJ (initBugfix 5 dt0).timestamp)] ∧
    "injected fault" ≠ "" ∧ pyMain env2fault dt0 = 0 :=
  implement_error_c3 (initBugfix 5 dt0) env2fault dt0 2 "injected fault"
    (by decide) rfl (by decide) (by decide)

/-- Claim C4: on a freshly constructed instance in a normal environment
(no injected fault, interpreter at least 3.8), the prerequisites check
returns exactly the four keys `python_version`, `logging_configured`,
`timestamp_valid`, `issue_number_valid`, all `true`; and it never raises —
when a fault is injected into its `try` body it returns the error-flagged
dict `{'error': True, 'message': str(e)}` instead. -/
theorem validate_prerequisites_c4 (n : Int) (d : PyDateTime) (env : Env)
    (hv : env.validateFault = none) (hver : env.versionGE38 = true) :
    validate_automation_prerequisites (initBugfix n d) env =
      [("python_version", .jBool true),
       ("logging_configured", .jBool true),
       ("timestamp_valid", .jBool true),
       ("issue_number_valid", .jBool true)] ∧
    ∀ e, validate_automation_prerequisites (initBugfix n d)
        {env with validateFault := some e} =
      [("error", .jBool true), ("message", .jStr e)] := by
  constructor
  · simp [validate_automation_prerequisites, hv, hver, initBugfix, PyScalar.isInt]
  · intro e
    simp [validate_automation_prerequisites]

/-- Witness for C4 at issue number 5 in the concrete normal environment,
with the fault branch taken at exception text `boom`. -/
theorem validate_prerequisites_c4_witness :
    validate_automation_prerequisites (initBugfix 5 dt0) env0 =
      [("python_version", .jBool true),
       ("logging_configured", .jBool true),
       ("timestamp_valid", .jBool true),
       ("issue_number_valid", .jBool true)] ∧
    validate_automation_prerequisites (initBugfix 5 dt0)
        {env0 with validateFault := some "boom"} =
      [("error", .jBool true), ("message", .jStr "boom")] :=
  ⟨(validate_prerequisites_c4 5 dt0 env0 rfl rfl).1,
   (validate_prerequisites_c4 5 dt0 env0 rfl rfl).2 "boom"⟩

/-- Claim C5: `generate_automation_report` never raises — it is total on the
modelled state — and when its `try` body raises with text `e`, it returns
the two-space-indented serialization of the single-key dict
`{'error': str(e)}` instead of propagating the exception. -/
theorem generate_report_error_c5 (self : ClaudeAutomationBugfix) (env : Env)
    (e : String) :
    generate_automation_report self {env with reportFault := some e} =
      dumps (.jObj [("error", .jStr e)]) 0 := rfl

/-- Claim C7: in every successful result of `implement_enhanced_automation`,
the recorded `execution_time_seconds` equals the end clock reading minus the
start clock reading converted to seconds, and is nonnegative whenever the
end reading is at least the start reading (finiteness is intrinsic to the
exact-arithmetic model of `total_seconds`). -/
theorem execution_time_c7 (self : ClaudeAutomationBugfix) (env : Env)
    (h1 : env.stepFault 1 = none) (h2 : env.stepFault 2 = none)
    (h3 : env.stepFault 3 = none) (h4 : env.stepFault 4 = none)
    (hle : env.startUs ≤ env.endUs) :
    jLookup "execution_time_seconds" (implement_enhanced_automation self env) =
      some (.jRat (elapsedSeconds env)) ∧
    elapsedSeconds env = ((env.endUs - env.startUs : Int) : Rat) / 1000000 ∧
    0 ≤ elapsedSeconds env := by
  refine ⟨?_, rfl, ?_⟩
  · simp only [implement_enhanced_automation,
      runSteps_all_ok env.stepFault h1 h2 h3 h4]
    rfl
  · have hz : (0 : Int) ≤ env.endUs - env.startUs := sub_nonneg.mpr hle
    have hz' : (0 : Rat) ≤ ((env.endUs - env.startUs : Int) : Rat) := by
      exact_mod_cast hz
    exact div_nonneg hz' (by norm_num)

/-- Witness for C7 in the concrete normal environment (readings 1500
microseconds apart). -/
theorem execution_time_c7_witness :
    jLookup "execution_time_seconds"
        (implement_enhanced_automation (initBugfix 5 dt0) env0) =
      some (.jRat (elapsedSeconds env0)) ∧
    elapsedSeconds env0 = ((env0.endUs - env0.startUs : Int) : Rat) / 1000000 ∧
    0 ≤ elapsedSeconds env0 :=
  execution_time_c7 (initBugfix 5 dt0) env0 rfl rfl rfl rfl (by decide)

/-- Claim C8: no public operation mutates the per-run context: in the
state-passing translation of each method body (which contains no attribute
assignment), the post-state of `self` equals the input state, whose three
fields are exactly the values set at construction. -/
theorem context_immutable_c8 (n : Int) (d : PyDateTime) (env : Env) :
    (validate_automation_prerequisitesSt (initBugfix n d) env).2 = initBugfix n d ∧
    (implement_enhanced_automationSt (initBugfix n d) env).2 = initBugfix n d ∧
    (generate_automation_reportSt (initBugfix n d) env).2 = initBugfix n d ∧
    (initBugfix n d).issue_number = .pInt n ∧
    (initBugfix n d).timestamp = some d.isoformat ∧
    (initBugfix n d).logger = some () :=
  ⟨rfl, rfl, rfl, rfl, rfl, rfl⟩

/-- Claim C9: loading the fixture module `test_code_review.py` fails fast
with a `NameError`: the module-level statement `console.log = ...` evaluates
the name `console`, which neither the module scope built so far (only the
two imports `os` and `logging`) nor the builtins define, so execution aborts
there and `test_function` is never defined, let alone called. -/
theorem fixture_name_error_c9 :
    execModule test_code_review_stmts [] = .error ("console", ["os", "logging"]) ∧
    "test_function" ∉ ["os", "logging"] ∧
    "console" ∉ pyBuiltins :=
  ⟨rfl, by decide, by decide⟩

/-- The prerequisites check reads nothing from the two clock readings. -/
theorem validate_time_invariant (self : ClaudeAutomationBugfix) (env : Env)
    (s2 e2 : Int) :
    validate_automation_prerequisites self {env with startUs := s2, endUs := e2} =
      validate_automation_prerequisites self env := by
  cases hv : env.validateFault <;>
    simp [validate_automation_prerequisites, hv, Env.versionGE38]

/-- Changing only the two clock readings of the environment changes nothing
in the report value once every `execution_time_seconds` entry is erased. -/
theorem eraseTime_report_time_invariant (self : ClaudeAutomationBugfix)
    (env : Env) (s2 e2 : Int) :
    eraseTime (reportValue self env) =
      eraseTime (reportValue self {env with startUs := s2, endUs := e2}) := by
  cases hrun : runStepsFrom env.stepFault stepOrdinals [] with
  | error e =>
    simp [reportValue, reportInner, implement_enhanced_automation, hrun,
      eraseTime, eraseTimeList, validate_time_invariant self env s2 e2]
  | ok results =>
    simp [reportValue, reportInner, implement_enhanced_automation, hrun,
      eraseTime, eraseTimeList, validate_time_invariant self env s2 e2]

/-- Claim C6: two calls to `generate_automation_report` on the same instance
in the same process (so: the same context object and fault state, possibly
different clock readings) yield reports whose parsed structures agree on
every field once the timing field `execution_time_seconds` is erased; in
particular they are identical except for timing, and the `report_timestamp`
values even coincide. -/
theorem report_idempotent_c6 (self : ClaudeAutomationBugfix) (env : Env)
    (s2 e2 : Int) :
    eraseTime (reportValue self env) =
      eraseTime (reportValue self {env with startUs := s2, endUs := e2}) :=
  eraseTime_report_time_invariant self env s2 e2

/-- Claim C10 (implicit): `report_timestamp` (like the `timestamp` inside
`implementation`) is fixed at instance construction, not at report time: two
calls on the same instance carry the identical construction-time timestamp,
and after erasing `execution_time_seconds` the two report structures are
equal — only the timing field can differ. -/
theorem report_timestamp_construction_c10 (n : Int) (d : PyDateTime)
    (env : Env) (s2 e2 : Int) :
    jLookup "report_timestamp" (reportInner (initBugfix n d) env) =
      some (.jStr d.isoformat) ∧
    jLookup "report_timestamp"
        (reportInner (initBugfix n d) {env with startUs := s2, endUs := e2}) =
      some (.jStr d.isoformat) ∧
    jLookup "timestamp" (implement_enhanced_automation (initBugfix n d) env) =
      some (optStrToJ (initBugfix n d).timestamp) ∧
    eraseTime (reportValue (initBugfix n d) env) =
      eraseTime (reportValue (initBugfix n d) {env with startUs := s2, endUs := e2}) := by
  refine ⟨rfl, rfl, ?_, eraseTime_report_time_invariant (initBugfix n d) env s2 e2⟩
  cases hrun : runStepsFrom env.stepFault stepOrdinals [] with
  | error e => simp [implement_enhanced_automation, hrun, jLookup]
  | ok results => simp [implement_enhanced_automation, hrun, jLookup]

/-- Claim C1: in a normal environment the report of a freshly constructed
instance is a single-top-level-key structure `claude_automation_report`
whose value carries every documented key — `issue_number` (the integer
passed at construction), `report_timestamp` (an ISO-8601 string),
`prerequisites` (the four booleans, all true), `implementation`,
`automation_type` (the constant string) and `expected_performance` (the
three constant strings) — and the two-space-indented serialized text
contains the literal `"automation_type": "enhanced_instant_review"`. -/
theorem report_schema_c1 (n : Int) (d : PyDateTime) (env : Env)
    (hd : d.Valid) (hrf : env.reportFault = none)
    (hvf : env.validateFault = none)
    (_h1 : env.stepFault 1 = none) (_h2 : env.stepFault 2 = none)
    (_h3 : env.stepFault 3 = none) (_h4 : env.stepFault 4 = none)
    (hver : env.versionGE38 = true) :
    reportValue (initBugfix n d) env =
      .jObj [("claude_automation_report",
              .jObj (reportInner (initBugfix n d) env))] ∧
    jLookup "issue_number" (reportInner (initBugfix n d) env) =
      some (.jInt n) ∧
    jLookup "report_timestamp" (reportInner (initBugfix n d) env) =
      some (.jStr d.isoformat) ∧
    IsIso8601 d.isoformat ∧
    jLookup "prerequisites" (reportInner (initBugfix n d) env) =
      some (.jObj [("python_version", .jBool true),
                   ("logging_configured", .jBool true),
                   ("timestamp_valid", .jBool true),
                   ("issue_number_valid", .jBool true)]) ∧
    jLookup "implementation" (reportInner (initBugfix n d) env) =
      some (.jObj (implement_enhanced_automation (initBugfix n d) env)) ∧
    jLookup "automation_type" (reportInner (initBugfix n d) env) =
      some (.jStr "enhanced_instant_review") ∧
    jLookup "expected_performance" (reportInner (initBugfix n d) env) =
      some (.jObj expected_performance) ∧
    SubstrOf "\"automation_type\": \"enhanced_instant_review\""
      (generate_automation_report (initBugfix n d) env) := by
  refine ⟨rfl, rfl, rfl, ⟨d, hd, rfl⟩, ?_, rfl, rfl, rfl, ?_⟩
  · simp [reportInner, jLookup, validate_automation_prerequisites, hvf, hver,
      initBugfix, PyScalar.isInt]
  · have hgen : generate_automation_report (initBugfix n d) env =
        dumps (reportValue (initBugfix n d) env) 0 := by
      simp only [generate_automation_report, hrf]
    rw [hgen]
    have h56 : SubstrOf "\"automation_type\": \"enhanced_instant_review\""
        (dumpsEntries
          [("automation_type", JValue.jStr "enhanced_instant_review"),
           ("expected_performance", .jObj expected_performance)] 2) :=
      ⟨indentStr 2,
       ",\n" ++ dumpsEntries [("expected_performance", .jObj expected_performance)] 2,
       by rfl⟩
    have hrep : SubstrOf "\"automation_type\": \"enhanced_instant_review\""
        (dumpsEntries (reportInner (initBugfix n d) env) 2) := by
      show SubstrOf _ (dumpsEntries
        [("issue_number", (initBugfix n d).issue_number.toJ),
         ("report_timestamp", optStrToJ (initBugfix n d).timestamp),
         ("prerequisites",
          .jObj (validate_automation_prerequisites (initBugfix n d) env)),
         ("implementation",
          .jObj (implement_enhanced_automation (initBugfix n d) env)),
         ("automation_type", .jStr "enhanced_instant_review"),
         ("expected_performance", .jObj expected_performance)] 2)
      rw [dumpsEntries_cons, dumpsEntries_cons, dumpsEntries_cons,
        dumpsEntries_cons]
      exact substrOf_append_left _ _ (substrOf_append_left _ _
        (substrOf_append_left _ _ (substrOf_append_left _ _ h56)))
    have hobj : SubstrOf "\"automation_type\": \"enhanced_instant_review\""
        (dumps (.jObj (reportInner (initBugfix n d) env)) 1) := by
      show SubstrOf _ (dumps (.jObj
        (("issue_number", (initBugfix n d).issue_number.toJ) ::
         [("report_timestamp", optStrToJ (initBugfix n d).timestamp),
          ("prerequisites",
           .jObj (validate_automation_prerequisites (initBugfix n d) env)),
          ("implementation",
           .jObj (implement_enhanced_automation (initBugfix n d) env)),
          ("automation_type", .jStr "enhanced_instant_review"),
          ("expected_performance", .jObj expected_performance)])) 1)
      exact substrOf_dumps_obj _ _ _ 1 hrep
    show SubstrOf _ (dumps (.jObj
      [("claude_automation_report", .jObj (reportInner (initBugfix n d) env))]) 0)
    refine substrOf_dumps_obj _ _ _ 0 ?_
    rw [dumpsEntries_single]
    exact substrOf_append_left _ _ hobj

/-- Witness for C1 at issue number 5, the concrete construction-time clock
reading and the concrete normal environment. -/
theorem report_schema_c1_witness :
    reportValue (initBugfix 5 dt0) env0 =
      .jObj [("claude_automation_report",
              .jObj (reportInner (initBugfix 5 dt0) env0))] ∧
    jLookup "issue_number" (reportInner (initBugfix 5 dt0) env0) =
      some (.jInt 5) ∧
    jLookup "report_timestamp" (reportInner (initBugfix 5 dt0) env0) =
      some (.jStr dt0.isoformat) ∧
    IsIso8601 dt0.isoformat ∧
    jLookup "prerequisites" (reportInner (initBugfix 5 dt0) env0) =
      some (.jObj [("python_version", .jBool true),
                   ("logging_configured", .jBool true),
                   ("timestamp_valid", .jBool true),
                   ("issue_number_valid", .jBool true)]) ∧
    jLookup "implementation" (reportInner (initBugfix 5 dt0) env0) =
      some (.jObj (implement_enhanced_automation (initBugfix 5 dt0) env0)) ∧
    jLookup "automation_type" (reportInner (initBugfix 5 dt0) env0) =
      some (.jStr "enhanced_instant_review") ∧
    jLookup "expected_performance" (reportInner (initBugfix 5 dt0) env0) =
      some (.jObj expected_performance) ∧
    SubstrOf "\"automation_type\": \"enhanced_instant_review\""
      (generate_automation_report (initBugfix 5 dt0) env0) :=
  report_schema_c1 5 dt0 env0 (by decide) rfl rfl rfl rfl rfl rfl rfl
